import Mathlib

/-!
Verification of the constitutional governance kernel
(`infra/core/daemon`: `invariants.py`, `halt_matrix.py`,
`governance_daemon.py`, `hug_protocol.py`).

The Python modules are shallowly embedded: pure functions become Lean
functions, the stateful ledger becomes explicit state passing, Python
exceptions raised by invariant predicates become an `Except` result of the
embedded validator, and wall-clock timestamps become explicit `String`
parameters.  The JSON canonical serialization (`json.dumps(...,
sort_keys=True, separators=(",", ":"))`) and `hashlib.sha256(...)` used by
the kernel's evidence hashing are embedded executably below.
-/

namespace Sovereign

/-! ## JSON values and Python-`json.dumps` canonical encoding -/

/-- JSON values as produced by Python's `json` module for kernel records.
Numbers are restricted to integers, which is what every kernel record
carries. -/
inductive Json where
  | null : Json
  | bool : Bool → Json
  | num : Int → Json
  | str : String → Json
  | arr : List Json → Json
  | obj : List (String × Json) → Json

/-- Lower-case hexadecimal digit. -/
def hexDigit (n : Nat) : Char :=
  if n < 10 then Char.ofNat (48 + n) else Char.ofNat (87 + n)

/-- `len`-digit lower-case big-endian hexadecimal rendering of `n`. -/
def toHexN (len n : Nat) : String :=
  String.mk ((List.range len).map (fun i => hexDigit (n / 16 ^ (len - 1 - i) % 16)))

/-- Escape one character the way `json.dumps` (default `ensure_ascii=True`)
does: the two-character escapes for quote, backslash and the common control
characters, `\uXXXX` for other control and all non-ASCII characters, and
surrogate pairs for astral code points. -/
def jsonEscapeChar (c : Char) : String :=
  let n := c.toNat
  if n = 34 then "\\\""
  else if n = 92 then "\\\\"
  else if n = 8 then "\\b"
  else if n = 9 then "\\t"
  else if n = 10 then "\\n"
  else if n = 12 then "\\f"
  else if n = 13 then "\\r"
  else if n < 32 then "\\u" ++ toHexN 4 n
  else if n < 127 then String.singleton c
  else if n < 65536 then "\\u" ++ toHexN 4 n
  else
    "\\u" ++ toHexN 4 (55296 + (n - 65536) / 1024) ++
    "\\u" ++ toHexN 4 (56320 + (n - 65536) % 1024)

/-- A JSON string literal with its quotes, escaped as `json.dumps` does. -/
def jsonEscape (s : String) : String :=
  "\"" ++ String.join (s.data.map jsonEscapeChar) ++ "\""

/-- Lexicographic comparison of Unicode code-point sequences — Python's
`<` on `str`, which is what `sorted`/`sort_keys` order by. -/
def charListLt : List Char → List Char → Bool
  | [], [] => false
  | [], _ :: _ => true
  | _ :: _, [] => false
  | c :: cs, d :: ds =>
      if c.toNat < d.toNat then true
      else if d.toNat < c.toNat then false
      else charListLt cs ds

/-- Python `a < b` on strings. -/
def strLt (a b : String) : Bool := charListLt a.data b.data

/-- Insert a `(key, renderedValue)` pair into a key-sorted list. -/
def insertByKey (p : String × String) : List (String × String) → List (String × String)
  | [] => [p]
  | q :: rest => if strLt p.1 q.1 then p :: q :: rest else q :: insertByKey p rest

/-- Sort `(key, renderedValue)` pairs by key (Python `sort_keys=True`;
object keys are unique so the order among equals never matters). -/
def sortByKey : List (String × String) → List (String × String)
  | [] => []
  | p :: rest => insertByKey p (sortByKey rest)

/-- Comma-join, the item separator of `separators=(",", ":")`. -/
def joinComma : List String → String
  | [] => ""
  | [x] => x
  | x :: rest => x ++ "," ++ joinComma rest

mutual
/-- `json.dumps(v, sort_keys=True, separators=(",", ":"))`.  `sort_keys`
sorts the keys of every object; since a value's rendering does not depend
on its position, rendering each member first and then sorting the rendered
pairs by key yields exactly the same output string. -/
def encodeJson : Json → String
  | .null => "null"
  | .bool true => "true"
  | .bool false => "false"
  | .num n => toString n
  | .str s => jsonEscape s
  | .arr xs => "[" ++ joinComma (encodeItems xs) ++ "]"
  | .obj kvs =>
      "\x7b" ++
        joinComma ((sortByKey (encodeMembers kvs)).map
          (fun p => jsonEscape p.1 ++ ":" ++ p.2)) ++
      "\x7d"
termination_by structural j => j

def encodeItems : List Json → List String
  | [] => []
  | v :: rest => encodeJson v :: encodeItems rest
termination_by structural l => l

def encodeMembers : List (String × Json) → List (String × String)
  | [] => []
  | (k, v) :: rest => (k, encodeJson v) :: encodeMembers rest
termination_by structural l => l
end

/-! ## UTF-8 and SHA-256 (`str.encode()` / `hashlib.sha256`) -/

/-- UTF-8 encoding of one Unicode scalar value. -/
def utf8EncodeChar (n : Nat) : List Nat :=
  if n < 128 then [n]
  else if n < 2048 then [192 + n / 64, 128 + n % 64]
  else if n < 65536 then [224 + n / 4096, 128 + n / 64 % 64, 128 + n % 64]
  else [240 + n / 262144, 128 + n / 4096 % 64, 128 + n / 64 % 64, 128 + n % 64]

/-- `s.encode()`: the UTF-8 bytes of a string, as `Nat`s below 256. -/
def utf8Bytes (s : String) : List Nat :=
  (s.data.map (fun c => utf8EncodeChar c.toNat)).flatten

/-- Truncation to a 32-bit word. -/
def w32 (n : Nat) : Nat := n % 4294967296

/-- 32-bit right-rotation. -/
def rotr32 (r x : Nat) : Nat := x % 2 ^ r * 2 ^ (32 - r) + x / 2 ^ r

/-- 32-bit bitwise complement (valid for `x < 2^32`). -/
def not32 (x : Nat) : Nat := 4294967295 - x

def sha256Ch (x y z : Nat) : Nat := (x &&& y) ^^^ (not32 x &&& z)
def sha256Maj (x y z : Nat) : Nat := (x &&& y) ^^^ (x &&& z) ^^^ (y &&& z)
def bigSigma0 (x : Nat) : Nat := rotr32 2 x ^^^ rotr32 13 x ^^^ rotr32 22 x
def bigSigma1 (x : Nat) : Nat := rotr32 6 x ^^^ rotr32 11 x ^^^ rotr32 25 x
def smallSigma0 (x : Nat) : Nat := rotr32 7 x ^^^ rotr32 18 x ^^^ (x / 8)
def smallSigma1 (x : Nat) : Nat := rotr32 17 x ^^^ rotr32 19 x ^^^ (x / 1024)

/-- The 64 SHA-256 round constants (FIPS 180-4 §4.2.2, written in
decimal). -/
def sha256K : List Nat :=
  [1116352408, 1899447441, 3049323471, 3921009573, 961987163,
   1508970993, 2453635748, 2870763221, 3624381080, 310598401, 607225278,
   1426881987, 1925078388, 2162078206, 2614888103, 3248222580,
   3835390401, 4022224774, 264347078, 604807628, 770255983, 1249150122,
   1555081692, 1996064986, 2554220882, 2821834349, 2952996808,
   3210313671, 3336571891, 3584528711, 113926993, 338241895, 666307205,
   773529912, 1294757372, 1396182291, 1695183700, 1986661051,
   2177026350, 2456956037, 2730485921, 2820302411, 3259730800,
   3345764771, 3516065817, 3600352804, 4094571909, 275423344, 430227734,
   506948616, 659060556, 883997877, 958139571, 1322822218, 1537002063,
   1747873779, 1955562222, 2024104815, 2227730452, 2361852424,
   2428436474, 2756734187, 3204031479, 3329325298]

/-- The initial SHA-256 hash state (FIPS 180-4 §5.3.3, in decimal). -/
def sha256H0 : List Nat :=
  [1779033703, 3144134277, 1013904242, 2773480762, 1359893119,
   2600822924, 528734635, 1541459225]

/-- SHA-256 padding: `0x80`, zeros to 56 mod 64, 8-byte big-endian bit length. -/
def sha256Pad (msg : List Nat) : List Nat :=
  let L := msg.length
  let k := (119 - L % 64) % 64
  msg ++ 128 :: List.replicate k 0 ++
    [56, 48, 40, 32, 24, 16, 8, 0].map (fun i => 8 * L / 2 ^ i % 256)

/-- Split into 64-byte blocks (structural recursion on a length bound, so
that the definition reduces inside the kernel). -/
def toBlocksAux : Nat → List Nat → List (List Nat)
  | 0, _ => []
  | _, [] => []
  | fuel + 1, x :: rest => ((x :: rest).take 64) :: toBlocksAux fuel ((x :: rest).drop 64)

/-- Split into 64-byte blocks. -/
def toBlocks (l : List Nat) : List (List Nat) := toBlocksAux l.length l

/-- The 16 big-endian 32-bit words of one 64-byte block. -/
def blockWords (b : List Nat) : List Nat :=
  (List.range 16).map (fun i =>
    b.getD (4 * i) 0 * 16777216 + b.getD (4 * i + 1) 0 * 65536 +
    b.getD (4 * i + 2) 0 * 256 + b.getD (4 * i + 3) 0)

/-- Extend the 16 message words to the 64-entry message schedule. -/
def extendSchedule (ws : List Nat) : List Nat :=
  (List.range 48).foldl
    (fun w _ =>
      let t := w.length
      w ++ [w32 (smallSigma1 (w.getD (t - 2) 0) + w.getD (t - 7) 0 +
                 smallSigma0 (w.getD (t - 15) 0) + w.getD (t - 16) 0)])
    ws

/-- The eight 32-bit working registers of the compression function. -/
structure Regs where
  a : Nat
  b : Nat
  c : Nat
  d : Nat
  e : Nat
  f : Nat
  g : Nat
  h : Nat

/-- One SHA-256 round. -/
def sha256Round (r : Regs) (kt wt : Nat) : Regs :=
  let t1 := w32 (r.h + bigSigma1 r.e + sha256Ch r.e r.f r.g + kt + wt)
  let t2 := w32 (bigSigma0 r.a + sha256Maj r.a r.b r.c)
  { a := w32 (t1 + t2), b := r.a, c := r.b, d := r.c,
    e := w32 (r.d + t1), f := r.e, g := r.f, h := r.g }

/-- Compress one 64-byte block into the running hash state. -/
def compressBlock (hs : List Nat) (block : List Nat) : List Nat :=
  let w := extendSchedule (blockWords block)
  let init : Regs :=
    { a := hs.getD 0 0, b := hs.getD 1 0, c := hs.getD 2 0, d := hs.getD 3 0,
      e := hs.getD 4 0, f := hs.getD 5 0, g := hs.getD 6 0, h := hs.getD 7 0 }
  let fin := (List.range 64).foldl
    (fun r t => sha256Round r (sha256K.getD t 0) (w.getD t 0)) init
  [w32 (hs.getD 0 0 + fin.a), w32 (hs.getD 1 0 + fin.b),
   w32 (hs.getD 2 0 + fin.c), w32 (hs.getD 3 0 + fin.d),
   w32 (hs.getD 4 0 + fin.e), w32 (hs.getD 5 0 + fin.f),
   w32 (hs.getD 6 0 + fin.g), w32 (hs.getD 7 0 + fin.h)]

/-- The eight 32-bit words of the SHA-256 digest of a byte sequence. -/
def sha256Words (msg : List Nat) : List Nat :=
  (toBlocks (sha256Pad msg)).foldl compressBlock sha256H0

/-- `hashlib.sha256(data).hexdigest()`: 64 lower-case hex characters. -/
def sha256Hex (msg : List Nat) : String :=
  String.join ((sha256Words msg).map (toHexN 8))

/-- Substring test on character lists (Python's `in` operator on `str`). -/
def listIsInfixOf (xs : List Char) : List Char → Bool
  | [] => xs.isEmpty
  | y :: rest => List.isPrefixOf xs (y :: rest) || listIsInfixOf xs rest

/-- Python `pattern in s`. -/
def strContains (s pat : String) : Bool := listIsInfixOf pat.data s.data

/-- ASCII lowering of one character (`str.lower()` restricted to the
ASCII range; every pattern the kernel lowercases against is ASCII). -/
def charToLower (c : Char) : Char :=
  let n := c.toNat
  if 65 ≤ n ∧ n ≤ 90 then Char.ofNat (n + 32) else c

/-- Python `s.lower()`. -/
def strToLower (s : String) : String := String.mk (s.data.map charToLower)

/-! ## `infra/core/daemon/invariants.py` -/

namespace Invariants

/-- `Severity(str, Enum)` of `invariants.py` (invariant violation levels). -/
inductive Severity where
  | INFO
  | LOW
  | MEDIUM
  | HIGH
  | CRITICAL
deriving DecidableEq, Repr

/-- The `.value` string of the enum member. -/
def Severity.value : Severity → String
  | .INFO => "INFO"
  | .LOW => "LOW"
  | .MEDIUM => "MEDIUM"
  | .HIGH => "HIGH"
  | .CRITICAL => "CRITICAL"

/-- `InvariantStatus(str, Enum)`. -/
inductive InvariantStatus where
  | PASS
  | FAIL
  | SKIP
  | ERROR
deriving DecidableEq, Repr

/-- The `.value` string of the enum member. -/
def InvariantStatus.value : InvariantStatus → String
  | .PASS => "PASS"
  | .FAIL => "FAIL"
  | .SKIP => "SKIP"
  | .ERROR => "ERROR"

/-- The runtime fact map (`context: Dict[str, Any]`). -/
def Ctx := List (String × Json)

/-- `@dataclass InvariantResult` (fields in declaration order); `evidence`
is a JSON object's member list. -/
structure InvariantResult where
  invariant_id : String
  name : String
  status : InvariantStatus
  severity : Severity
  reason : String
  timestamp : String
  evidence : List (String × Json)
  hash : String

/-- `InvariantResult._compute_hash`: first 16 hex characters of the SHA-256
of the sorted-key compact JSON of the fields excluding `hash`. -/
def computeResultHash (r : InvariantResult) : String :=
  (sha256Hex (utf8Bytes (encodeJson (Json.obj
    [("invariant_id", .str r.invariant_id),
     ("name", .str r.name),
     ("status", .str r.status.value),
     ("severity", .str r.severity.value),
     ("reason", .str r.reason),
     ("timestamp", .str r.timestamp),
     ("evidence", .obj r.evidence)])))).take 16

/-- Construction of an `InvariantResult` followed by `__post_init__`: an
empty `hash` field is replaced by the computed content hash, a non-empty
one is stored unchanged. -/
def mkInvariantResult (invariant_id name : String) (status : InvariantStatus)
    (severity : Severity) (reason timestamp : String)
    (evidence : List (String × Json)) (hash : String) : InvariantResult :=
  let r : InvariantResult :=
    { invariant_id, name, status, severity, reason, timestamp, evidence, hash }
  if r.hash = "" then { r with hash := computeResultHash r } else r

/-- `InvariantResult.to_dict`. -/
def InvariantResult.to_dict (r : InvariantResult) : Json :=
  .obj [("invariant_id", .str r.invariant_id),
        ("name", .str r.name),
        ("status", .str r.status.value),
        ("severity", .str r.severity.value),
        ("reason", .str r.reason),
        ("timestamp", .str r.timestamp),
        ("evidence", .obj r.evidence),
        ("hash", .str r.hash)]

/-- `InvariantResult.is_failure`. -/
def InvariantResult.is_failure (r : InvariantResult) : Bool :=
  r.status == .FAIL || r.status == .ERROR

/-- A Python exception raised by a validator: its `type(e).__name__` and
`str(e)`. -/
structure PyExc where
  excType : String
  msg : String

/-- `@dataclass Invariant`.  The validator either returns a result or
raises, embedded as `Except` over the exception data. -/
structure Invariant where
  id : String
  name : String
  description : String
  severity : Severity
  validator : Ctx → Except PyExc InvariantResult
  enabled : Bool := true
  agi_safety : Bool := false

/-- `Invariant.validate`: SKIP when disabled; otherwise run the validator,
converting a raised exception into an ERROR result with severity escalated
to CRITICAL (`INV_FAILURE_IS_LOUD`).  `now` is the wall clock read by the
result's default timestamp factory. -/
def Invariant.validate (inv : Invariant) (context : Ctx) (now : String) :
    InvariantResult :=
  if !inv.enabled then
    mkInvariantResult inv.id inv.name .SKIP inv.severity "Invariant disabled"
      now [("enabled", .bool false)] ""
  else
    match inv.validator context with
    | .ok r => r
    | .error e =>
        mkInvariantResult inv.id inv.name .ERROR .CRITICAL
          ("Validator error: " ++ e.msg) now
          [("exception", .str e.msg), ("exception_type", .str e.excType)] ""

/-- `InvariantRegistry`: the `_invariants` dict's values in insertion
order (ids are the dict keys).  The `_results_history` list only records
copies of returned results and is not modelled. -/
structure InvariantRegistry where
  invariants : List Invariant

/-- `InvariantRegistry.register`: plain dict assignment
`self._invariants[invariant.id] = invariant` — an existing id is replaced
in place (keeping its position), a new id is appended. -/
def InvariantRegistry.register (reg : InvariantRegistry) (inv : Invariant) :
    InvariantRegistry :=
  if reg.invariants.any (fun x => x.id == inv.id) then
    { invariants := reg.invariants.map (fun x => if x.id == inv.id then inv else x) }
  else
    { invariants := reg.invariants ++ [inv] }

/-- `InvariantRegistry.get`: dict lookup by id. -/
def InvariantRegistry.get (reg : InvariantRegistry) (invariant_id : String) :
    Option Invariant :=
  reg.invariants.find? (fun x => x.id == invariant_id)

/-- `InvariantRegistry.validate_all`: every registered invariant, in
registration order. -/
def InvariantRegistry.validate_all (reg : InvariantRegistry) (context : Ctx)
    (now : String) : List InvariantResult :=
  reg.invariants.map (fun inv => inv.validate context now)

/-- `InvariantRegistry.get_failures`. -/
def get_failures (results : List InvariantResult) : List InvariantResult :=
  results.filter (fun r => r.is_failure)

/-- `InvariantRegistry.has_critical_failure`. -/
def has_critical_failure (results : List InvariantResult) : Bool :=
  results.any (fun r => r.is_failure && r.severity == .CRITICAL)

end Invariants

/-! ## `infra/core/daemon/halt_matrix.py` -/

namespace Halt

/-- `Severity(Enum)` of `halt_matrix.py` — the closed system-health
vocabulary. -/
inductive Severity where
  | INFO
  | WARN
  | FAULT
  | CRITICAL
deriving DecidableEq, Repr, Fintype

/-- The `.value` string of the enum member. -/
def Severity.value : Severity → String
  | .INFO => "info"
  | .WARN => "warn"
  | .FAULT => "fault"
  | .CRITICAL => "critical"

/-- `OpClass(Enum)` — the closed set of privileged operation classes. -/
inductive OpClass where
  | AUTHORITY_GRANT
  | AUTHORITY_REVOKE
  | AUTHORITY_EXTEND
  | CONFIG_MODIFY
  | CONFIG_DEPLOY
  | CONFIG_ROLLBACK
  | DATA_EXPORT
  | DATA_DELETE
  | DATA_MIGRATE
  | SYSTEM_RESTART
  | SYSTEM_UPGRADE
  | SYSTEM_SHUTDOWN
  | SECURITY_OVERRIDE
  | SECURITY_DOWNGRADE
  | KEY_ROTATION
  | QUORUM_OVERRIDE
  | CHALLENGE_DISMISS
  | INVARIANT_SUSPEND
deriving DecidableEq, Repr, Fintype

/-- The `.value` string of the enum member. -/
def OpClass.value : OpClass → String
  | .AUTHORITY_GRANT => "authority_grant"
  | .AUTHORITY_REVOKE => "authority_revoke"
  | .AUTHORITY_EXTEND => "authority_extend"
  | .CONFIG_MODIFY => "config_modify"
  | .CONFIG_DEPLOY => "config_deploy"
  | .CONFIG_ROLLBACK => "config_rollback"
  | .DATA_EXPORT => "data_export"
  | .DATA_DELETE => "data_delete"
  | .DATA_MIGRATE => "data_migrate"
  | .SYSTEM_RESTART => "system_restart"
  | .SYSTEM_UPGRADE => "system_upgrade"
  | .SYSTEM_SHUTDOWN => "system_shutdown"
  | .SECURITY_OVERRIDE => "security_override"
  | .SECURITY_DOWNGRADE => "security_downgrade"
  | .KEY_ROTATION => "key_rotation"
  | .QUORUM_OVERRIDE => "quorum_override"
  | .CHALLENGE_DISMISS => "challenge_dismiss"
  | .INVARIANT_SUSPEND => "invariant_suspend"

/-- Iteration order of `for op in OpClass` (declaration order). -/
def opClasses : List OpClass :=
  [.AUTHORITY_GRANT, .AUTHORITY_REVOKE, .AUTHORITY_EXTEND,
   .CONFIG_MODIFY, .CONFIG_DEPLOY, .CONFIG_ROLLBACK,
   .DATA_EXPORT, .DATA_DELETE, .DATA_MIGRATE,
   .SYSTEM_RESTART, .SYSTEM_UPGRADE, .SYSTEM_SHUTDOWN,
   .SECURITY_OVERRIDE, .SECURITY_DOWNGRADE, .KEY_ROTATION,
   .QUORUM_OVERRIDE, .CHALLENGE_DISMISS, .INVARIANT_SUSPEND]

/-- `HaltBehavior(Enum)`. -/
inductive HaltBehavior where
  | ALLOW
  | WARN_ALLOW
  | QUEUE
  | HALT
  | DENY
deriving DecidableEq, Repr, Fintype

/-- The `.value` string of the enum member. -/
def HaltBehavior.value : HaltBehavior → String
  | .ALLOW => "allow"
  | .WARN_ALLOW => "warn_allow"
  | .QUEUE => "queue"
  | .HALT => "halt"
  | .DENY => "deny"

/-- `@dataclass(frozen=True) HaltMatrixEntry`. -/
structure HaltMatrixEntry where
  severity : Severity
  op_class : OpClass
  behavior : HaltBehavior
  requires_quorum : Bool := false
  requires_challenge_clear : Bool := false
  audit_level : String := "standard"
deriving DecidableEq, Repr

/-- The `INFO` row of `_build_matrix`. -/
def buildInfoRow (op : OpClass) : HaltMatrixEntry :=
  if op = .INVARIANT_SUSPEND ∨ op = .SECURITY_DOWNGRADE then
    { severity := .INFO, op_class := op, behavior := .HALT,
      requires_quorum := true, requires_challenge_clear := true }
  else if op = .QUORUM_OVERRIDE ∨ op = .CHALLENGE_DISMISS then
    { severity := .INFO, op_class := op, behavior := .WARN_ALLOW,
      requires_quorum := true }
  else
    { severity := .INFO, op_class := op, behavior := .ALLOW }

/-- The `WARN` row of `_build_matrix`. -/
def buildWarnRow (op : OpClass) : HaltMatrixEntry :=
  if op = .INVARIANT_SUSPEND ∨ op = .SECURITY_DOWNGRADE ∨
     op = .SECURITY_OVERRIDE then
    { severity := .WARN, op_class := op, behavior := .HALT,
      requires_quorum := true, requires_challenge_clear := true }
  else if op = .SYSTEM_UPGRADE ∨ op = .CONFIG_DEPLOY ∨ op = .DATA_MIGRATE then
    { severity := .WARN, op_class := op, behavior := .QUEUE }
  else
    { severity := .WARN, op_class := op, behavior := .WARN_ALLOW,
      audit_level := "elevated" }

/-- The `FAULT` row of `_build_matrix`. -/
def buildFaultRow (op : OpClass) : HaltMatrixEntry :=
  if op = .INVARIANT_SUSPEND ∨ op = .SECURITY_DOWNGRADE ∨
     op = .SECURITY_OVERRIDE ∨ op = .QUORUM_OVERRIDE then
    { severity := .FAULT, op_class := op, behavior := .DENY }
  else if op = .AUTHORITY_GRANT ∨ op = .AUTHORITY_EXTEND ∨
          op = .CONFIG_MODIFY ∨ op = .CONFIG_DEPLOY ∨
          op = .SYSTEM_UPGRADE ∨ op = .DATA_DELETE ∨ op = .DATA_MIGRATE then
    { severity := .FAULT, op_class := op, behavior := .HALT,
      requires_challenge_clear := true }
  else
    { severity := .FAULT, op_class := op, behavior := .QUEUE,
      audit_level := "elevated" }

/-- The `CRITICAL` row of `_build_matrix`. -/
def buildCriticalRow (op : OpClass) : HaltMatrixEntry :=
  if op = .AUTHORITY_REVOKE ∨ op = .CONFIG_ROLLBACK ∨
     op = .SYSTEM_SHUTDOWN then
    { severity := .CRITICAL, op_class := op, behavior := .WARN_ALLOW,
      requires_quorum := true, audit_level := "maximum" }
  else if op = .CHALLENGE_DISMISS then
    { severity := .CRITICAL, op_class := op, behavior := .DENY }
  else
    { severity := .CRITICAL, op_class := op, behavior := .HALT,
      requires_quorum := true, requires_challenge_clear := true,
      audit_level := "maximum" }

/-- `HaltMatrix._build_matrix` followed by `_seal`: the full sealed table as
an association list keyed by `(severity, op_class)`.  The four build loops
write pairwise-distinct keys, so the dict's items are the four rows in
order. -/
def theMatrix : List HaltMatrixEntry :=
  opClasses.map buildInfoRow ++ opClasses.map buildWarnRow ++
  opClasses.map buildFaultRow ++ opClasses.map buildCriticalRow

/-- `HaltMatrix.decide` generalized over the table contents: direct lookup,
with the defensive fail-secure DENY entry for a pair not in the table. -/
def decideOn (matrix : List HaltMatrixEntry) (severity : Severity)
    (op_class : OpClass) : HaltMatrixEntry :=
  match matrix.find? (fun e => e.severity == severity && e.op_class == op_class) with
  | some e => e
  | none =>
      { severity, op_class, behavior := .DENY, requires_quorum := true,
        requires_challenge_clear := true, audit_level := "maximum" }

/-- `HALT_MATRIX.decide` on the sealed singleton matrix. -/
def decide (severity : Severity) (op_class : OpClass) : HaltMatrixEntry :=
  decideOn theMatrix severity op_class

/-- `HaltMatrix.can_proceed`. -/
def can_proceed (severity : Severity) (op_class : OpClass)
    (quorum_satisfied challenges_clear : Bool) : Bool × String :=
  let entry := decide severity op_class
  if entry.behavior = .DENY then
    (false, "Operation " ++ op_class.value ++ " denied at severity " ++
      severity.value)
  else if entry.behavior = .HALT then
    if entry.requires_quorum && !quorum_satisfied then
      (false, "Operation " ++ op_class.value ++ " halted: quorum required")
    else if entry.requires_challenge_clear && !challenges_clear then
      (false, "Operation " ++ op_class.value ++
        " halted: challenges must be cleared")
    else
      (true, "Operation " ++ op_class.value ++
        " allowed after requirements satisfied")
  else if entry.behavior = .QUEUE then
    (false, "Operation " ++ op_class.value ++ " queued pending remediation")
  else
    (true, "Operation " ++ op_class.value ++ " allowed at severity " ++
      severity.value)

/-- The decision record returned by `evaluate_operation` (the
`requirements` sub-dict is flattened into fields; the constant
`matrix_hash` seal digest is not needed by any claim and not modelled). -/
structure OperationDecision where
  timestamp : String
  op_class : String
  severity : String
  behavior : String
  decision : String
  reason : String
  quorum_required : Bool
  quorum_satisfied : Bool
  challenges_clear_required : Bool
  challenges_clear : Bool
  audit_level : String

/-- `evaluate_operation`, with the wall-clock timestamp as a parameter. -/
def evaluate_operation (op_class : OpClass) (current_severity : Severity)
    (quorum_satisfied challenges_clear : Bool) (timestamp : String) :
    OperationDecision :=
  let entry := decide current_severity op_class
  let cp := can_proceed current_severity op_class quorum_satisfied challenges_clear
  { timestamp
    op_class := op_class.value
    severity := current_severity.value
    behavior := entry.behavior.value
    decision := if cp.1 then "PROCEED" else "BLOCKED"
    reason := cp.2
    quorum_required := entry.requires_quorum
    quorum_satisfied
    challenges_clear_required := entry.requires_challenge_clear
    challenges_clear
    audit_level := entry.audit_level }

end Halt

/-! ## `infra/core/daemon/governance_daemon.py` — EvidenceLedger -/

namespace Ledger

open Invariants

/-- One persisted ledger line as parsed by `json.loads`.  An `Option`
field's `none` stands for JSON `null` (the value `dict.get` returns for
the seed state written by the code).  `payload_key` is `"result"` for
`append` entries and `"payload"` for `append_event` entries. -/
structure LedgerEntry where
  type : String
  timestamp : String
  previous_hash : Option String
  payload_key : String
  payload : Json
  entry_hash : Option String

/-- A JSON string or `null`, as Python serializes `Optional[str]`. -/
def optStr : Option String → Json
  | none => .null
  | some s => .str s

/-- `EvidenceLedger._compute_entry_hash`: SHA-256 hex digest of the
sorted-key compact JSON of the entry dict (which at this point holds
`type`, `timestamp`, `previous_hash` and the payload member, but not yet
`entry_hash`) with `previous_hash` set to the in-memory last hash. -/
def compute_entry_hash (typ ts payload_key : String) (payload : Json)
    (last_hash : Option String) : String :=
  sha256Hex (utf8Bytes (encodeJson (.obj
    [("type", .str typ), ("timestamp", .str ts),
     ("previous_hash", optStr last_hash), (payload_key, payload)])))

/-- `EvidenceLedger.append_event`: build the entry, hash it, persist it and
return it together with the updated in-memory last hash. -/
def append_event (last_hash : Option String) (event_type : String)
    (payload : Json) (ts : String) : LedgerEntry × Option String :=
  let h := compute_entry_hash event_type ts "payload" payload last_hash
  ({ type := event_type, timestamp := ts, previous_hash := last_hash,
     payload_key := "payload", payload, entry_hash := some h }, some h)

/-- `EvidenceLedger.append`: like `append_event` but with type
`INVARIANT_RESULT` and the serialized result under the `result` key. -/
def append (last_hash : Option String) (result : InvariantResult)
    (ts : String) : LedgerEntry × Option String :=
  let h := compute_entry_hash "INVARIANT_RESULT" ts "result" result.to_dict last_hash
  ({ type := "INVARIANT_RESULT", timestamp := ts, previous_hash := last_hash,
     payload_key := "result", payload := result.to_dict,
     entry_hash := some h }, some h)

/-- A sequence of `append_event` calls from a given in-memory state: the
list of entries they persist. -/
def appendEvents (last_hash : Option String) :
    List (String × Json × String) → List LedgerEntry
  | [] => []
  | (t, p, ts) :: rest =>
      let step := append_event last_hash t p ts
      step.1 :: appendEvents step.2 rest

/-- `EvidenceLedger._load_last_hash`: the `entry_hash` of the last
persisted line; an empty or missing ledger file leaves the seed `None`. -/
def load_last_hash (persisted : List LedgerEntry) : Option String :=
  match persisted.getLast? with
  | some e => e.entry_hash
  | none => none

/-- The loop body of `EvidenceLedger.verify_chain`: walk the persisted
lines comparing each line's `previous_hash` with the running hash, then
advance the running hash to the line's stored `entry_hash`.  No hash is
ever recomputed from the entry's content. -/
def verifyChainFrom (prev : Option String) : List LedgerEntry → Bool
  | [] => true
  | e :: rest =>
      if e.previous_hash = prev then verifyChainFrom e.entry_hash rest
      else false

/-- `EvidenceLedger.verify_chain` (a missing file returns `True`; a parse
failure returns `False` and is not reachable from the tamperings the
claims consider, which keep every line valid JSON). -/
def verify_chain (entries : List LedgerEntry) : Bool :=
  verifyChainFrom none entries

/-- The hash-linkage invariant of a persisted ledger segment, relative to
the in-memory hash in force when its first line was written. -/
def ChainedFrom (lh : Option String) : List LedgerEntry → Prop
  | [] => True
  | e :: rest => e.previous_hash = lh ∧ ChainedFrom e.entry_hash rest

/-- The in-memory hash in force after a segment has been persisted: the
last line's stored `entry_hash`, or the starting hash for an empty
segment.  `load_last_hash` coincides with `chainEnd none` (proved
below). -/
def chainEnd (lh : Option String) : List LedgerEntry → Option String
  | [] => lh
  | e :: rest => chainEnd e.entry_hash rest

end Ledger

/-! ## `infra/core/daemon/governance_daemon.py` — HUGProtocol -/

namespace HUGProtocol

open Invariants

/-- `@dataclass HUGResult` (the `governance_daemon.py` one). -/
structure HUGResult where
  step : String
  passed : Bool
  evidence : List (String × Json)
  timestamp : String

/-- `HUGProtocol.run_audit`: the three step results it builds and returns.
`now` is the single wall-clock reading taken at the top of the method.
The trailing loop that appends each step to the ledger happens after this
list is fully built and does not alter it. -/
def run_audit (ledger_path : String) (changed_files : List String)
    (commit_msg : String) (invariant_results : List InvariantResult)
    (now : String) : List HUGResult :=
  let needs_human := changed_files.any (fun f =>
    strContains (strToLower f) "invariant" ||
    strContains (strToLower f) "governance" ||
    strContains (strToLower f) "constitution")
  let human_approved :=
    strContains (strToLower commit_msg) "approved" ||
    strContains (strToLower commit_msg) "[human-approved]" || !needs_human
  let hres : HUGResult :=
    { step := "H", passed := human_approved,
      evidence :=
        [("changed_files", .arr (changed_files.map .str)),
         ("commit_msg", .str commit_msg),
         ("needs_human_review", .bool needs_human),
         ("human_approved", .bool human_approved)],
      timestamp := now }
  let all_passed := invariant_results.all (fun r => r.status == .PASS)
  let failures := (invariant_results.filter (fun r => r.is_failure)).map
    (fun r => r.to_dict)
  let ures : HUGResult :=
    { step := "U", passed := all_passed,
      evidence :=
        [("total_invariants", .num (invariant_results.length : Int)),
         ("passed", .num ((invariant_results.filter
            (fun r => r.status == .PASS)).length : Int)),
         ("failed", .num (failures.length : Int)),
         ("failures", .arr (failures.take 5))],
      timestamp := now }
  let gres : HUGResult :=
    { step := "G", passed := true,
      evidence :=
        [("audit_complete", .bool true),
         ("results_count", .num ([hres, ures].length : Int)),
         ("ledger_path", .str ledger_path)],
      timestamp := now }
  [hres, ures, gres]

/-- `HUGProtocol.is_audit_passed`. -/
def is_audit_passed (results : List HUGResult) : Bool :=
  results.all (fun r => r.passed)

end HUGProtocol

/-! ## `infra/core/daemon/hug_protocol.py` (standalone CI/CD module) -/

namespace HUGStandalone

open HUGProtocol

/-- `CRITICAL_PATTERNS`. -/
def CRITICAL_PATTERNS : List String :=
  ["invariant", "governance", "constitution", "daemon", "authority",
   "security", "credential", "secret", ".env", "kill_switch", "halt"]

/-- `needs_human_review`: some changed file matches some critical
pattern. -/
def needs_human_review (changed_files : List String) : Bool :=
  changed_files.any (fun f =>
    CRITICAL_PATTERNS.any (fun p => strContains (strToLower f) p))

/-- `is_human_approved`. -/
def is_human_approved (commit_msg : String) : Bool :=
  let m := strToLower commit_msg
  strContains m "[human-approved]" || strContains m "[approved]" ||
  strContains m "approved-by:" || strContains m "acked-by:"

/-- `HUGResult.to_dict` of the standalone module. -/
def hugResultToDict (r : HUGResult) : Json :=
  .obj [("step", .str r.step), ("passed", .bool r.passed),
        ("evidence", .obj r.evidence), ("timestamp", .str r.timestamp)]

/-- One line the G step appends to the ledger file. -/
structure WrittenRecord where
  type : String
  timestamp : String
  result : Json

/-- `run_hug_audit` of `hug_protocol.py`.  Two effectful calls are passed
in as parameters: `invariant_tests` is the `(passed, evidence)` pair the
`run_invariant_tests()` subprocess/import produced, and `write_outcome` is
what the filesystem did with the G step's append block (`.error` embeds
the `IOError` message the `except IOError` clause catches; on failure no
line is treated as durably written).  Returns the three step results plus
the ledger lines written. -/
def run_hug_audit (changed_files : List String) (commit_msg : String)
    (ledger_path : Option String)
    (invariant_tests : Bool × List (String × Json))
    (write_outcome : Except String Unit) (now : String) :
    List HUGResult × List WrittenRecord :=
  let requires_human := needs_human_review changed_files
  let human_approved := is_human_approved commit_msg
  let h_passed := !requires_human || human_approved
  let hres : HUGResult :=
    { step := "H", passed := h_passed,
      evidence :=
        [("changed_files", .arr (changed_files.map .str)),
         ("commit_msg", .str (commit_msg.take 200)),
         ("requires_human_review", .bool requires_human),
         ("human_approved", .bool human_approved),
         ("critical_patterns_matched", .arr
           ((changed_files.filter (fun f =>
              CRITICAL_PATTERNS.any (fun p =>
                strContains (strToLower f) p))).map .str))],
      timestamp := now }
  let ures : HUGResult :=
    { step := "U", passed := invariant_tests.1,
      evidence := invariant_tests.2, timestamp := now }
  let resultsHU := [hres, ures]
  let gBase : List (String × Json) :=
    [("audit_complete", .bool true),
     ("results_count", .num (resultsHU.length : Int)),
     ("all_passed", .bool (resultsHU.all (fun r => r.passed)))]
  match ledger_path with
  | none =>
      let gres : HUGResult :=
        { step := "G", passed := true, evidence := gBase, timestamp := now }
      (resultsHU ++ [gres], [])
  | some p =>
      match write_outcome with
      | .ok _ =>
          let written := resultsHU.map (fun r =>
            ({ type := "HUG_STEP_" ++ r.step, timestamp := r.timestamp,
               result := hugResultToDict r } : WrittenRecord))
          let gres : HUGResult :=
            { step := "G", passed := true,
              evidence := gBase ++
                [("ledger_path", .str p), ("ledger_written", .bool true)],
              timestamp := now }
          (resultsHU ++ [gres], written)
      | .error e =>
          let gres : HUGResult :=
            { step := "G", passed := true,
              evidence := gBase ++ [("ledger_error", .str e)],
              timestamp := now }
          (resultsHU ++ [gres], [])

end HUGStandalone

/-! ## Concrete fixtures used by counterexamples and witnesses -/

namespace Fixtures

open Invariants Ledger

/-- A fixed timestamp standing for one wall-clock reading. -/
def ts0 : String := "2025-01-01T00:00:00+00:00"

/-- An invariant whose id collides with `dupSecond` (first registration). -/
def dupFirst : Invariant :=
  { id := "INV-DUP", name := "first registration", description := "v1",
    severity := .LOW, validator := fun _ => .error ⟨"ValueError", "boom"⟩ }

/-- An invariant whose id collides with `dupFirst` (second registration). -/
def dupSecond : Invariant :=
  { id := "INV-DUP", name := "second registration", description := "v2",
    severity := .HIGH,
    validator := fun _ =>
      .ok (mkInvariantResult "INV-DUP" "second registration" .PASS .HIGH
        "ok" ts0 [] "") }

/-- Registering two invariants with the same id, in order. -/
def dupRegistry : InvariantRegistry :=
  (InvariantRegistry.register (InvariantRegistry.register ⟨[]⟩ dupFirst) dupSecond)

/-- An always-PASS invariant. -/
def invAlwaysPass : Invariant :=
  { id := "INV-A", name := "Always Pass", description := "a",
    severity := .HIGH,
    validator := fun _ =>
      .ok (mkInvariantResult "INV-A" "Always Pass" .PASS .HIGH "ok" ts0 [] "") }

/-- An always-FAIL invariant. -/
def invAlwaysFail : Invariant :=
  { id := "INV-B", name := "Always Fail", description := "b",
    severity := .HIGH,
    validator := fun _ =>
      .ok (mkInvariantResult "INV-B" "Always Fail" .FAIL .HIGH "bad" ts0 [] "") }

/-- An invariant whose validator raises `RuntimeError("exploded")`. -/
def invRaises : Invariant :=
  { id := "INV-C", name := "Always Raises", description := "c",
    severity := .MEDIUM,
    validator := fun _ => .error ⟨"RuntimeError", "exploded"⟩ }

/-- A PASS result fixture. -/
def passResult : InvariantResult :=
  mkInvariantResult "INV-001" "Immutable Audit Trail" .PASS .CRITICAL
    "Ledger exists and accessible" ts0 [] ""

/-- A SKIP result fixture (what a disabled invariant yields). -/
def skipResult : InvariantResult :=
  mkInvariantResult "INV-009" "Data Minimization" .SKIP .MEDIUM
    "Invariant disabled" ts0 [("enabled", .bool false)] ""

/-- A genuine first ledger entry, as `append_event` persists it on a fresh
ledger. -/
def genuineEntry : LedgerEntry :=
  (append_event none "DAEMON_START" (Json.str "payload-v1") ts0).1

/-- `genuineEntry` with a single payload byte flipped (`p` → `q`) and the
stored hashes left untouched. -/
def tamperedEntry : LedgerEntry :=
  { genuineEntry with payload := Json.str "qayload-v1" }

end Fixtures

/-! ## Supporting lemmas -/

open Invariants Ledger

set_option maxRecDepth 1000000 in
/-- FIPS 180-4 known-answer check: the embedded SHA-256 reproduces the
standard digest of `"abc"`, so the ledger and result hashes below are the
genuine algorithm. -/
theorem sha256_known_answer :
    sha256Hex (utf8Bytes "abc") =
      "ba7816bf8f01cfea414140de5dae2223b00361a396177a9cb410ff61f20015ad" := by
  rfl

theorem mkInvariantResult_status (i n : String) (st : InvariantStatus)
    (sv : Severity) (rs ts : String) (ev : List (String × Json)) (h : String) :
    (mkInvariantResult i n st sv rs ts ev h).status = st := by
  by_cases hh : h = "" <;> simp [mkInvariantResult, hh]

theorem mkInvariantResult_severity (i n : String) (st : InvariantStatus)
    (sv : Severity) (rs ts : String) (ev : List (String × Json)) (h : String) :
    (mkInvariantResult i n st sv rs ts ev h).severity = sv := by
  by_cases hh : h = "" <;> simp [mkInvariantResult, hh]

theorem mkInvariantResult_evidence (i n : String) (st : InvariantStatus)
    (sv : Severity) (rs ts : String) (ev : List (String × Json)) (h : String) :
    (mkInvariantResult i n st sv rs ts ev h).evidence = ev := by
  by_cases hh : h = "" <;> simp [mkInvariantResult, hh]

theorem chainedFrom_append (lh : Option String) (xs ys : List LedgerEntry)
    (hx : ChainedFrom lh xs) (hy : ChainedFrom (chainEnd lh xs) ys) :
    ChainedFrom lh (xs ++ ys) := by
  induction xs generalizing lh with
  | nil => simpa [chainEnd] using hy
  | cons x rest ih =>
      obtain ⟨h1, h2⟩ := hx
      exact ⟨h1, ih x.entry_hash h2 hy⟩

theorem appendEvents_chained (evs : List (String × Json × String))
    (lh : Option String) :
    ChainedFrom lh (appendEvents lh evs) := by
  induction evs generalizing lh with
  | nil => trivial
  | cons ev rest ih =>
      obtain ⟨t, p, ts⟩ := ev
      exact ⟨rfl, ih _⟩

theorem load_last_hash_eq_chainEnd (persisted : List LedgerEntry) :
    load_last_hash persisted = chainEnd none persisted := by
  induction persisted with
  | nil => rfl
  | cons e rest ih =>
      cases rest with
      | nil => rfl
      | cons y l =>
          have h1 : load_last_hash (e :: y :: l) = load_last_hash (y :: l) := by
            unfold load_last_hash
            rw [List.getLast?_cons_cons]
          rw [h1, ih]
          rfl

/-! ## Claim theorems -/

set_option maxRecDepth 1000000 in
/-- C1 (code bug): flipping a single payload byte of a persisted entry
without recomputing its hash is NOT detected — `verify_chain` returns
`True` on the tampered ledger, because it only compares each line's stored
`previous_hash` with the preceding line's stored `entry_hash` and never
recomputes any hash from an entry's content.  The conjuncts show: the
genuine one-entry ledger verifies; the tampered one still verifies; the
tampering changed the payload but kept both stored hash fields; and the
entry's hash recomputed from the tampered content no longer matches the
stored hash, so the claimed recomputation would have caught it. -/
theorem c1_verify_chain_misses_payload_tamper :
    Ledger.verify_chain [Fixtures.genuineEntry] = true ∧
    Ledger.verify_chain [Fixtures.tamperedEntry] = true ∧
    Fixtures.tamperedEntry.payload ≠ Fixtures.genuineEntry.payload ∧
    Fixtures.tamperedEntry.entry_hash = Fixtures.genuineEntry.entry_hash ∧
    Fixtures.tamperedEntry.previous_hash = Fixtures.genuineEntry.previous_hash ∧
    some (Ledger.compute_entry_hash "DAEMON_START" Fixtures.ts0 "payload"
        Fixtures.tamperedEntry.payload none) ≠
      Fixtures.tamperedEntry.entry_hash := by
  refine ⟨rfl, rfl, ?_, rfl, rfl, ?_⟩
  · intro h
    have h2 : "qayload-v1" = "payload-v1" := by injection h
    exact absurd h2 (by decide)
  · have h1 : Ledger.compute_entry_hash "DAEMON_START" Fixtures.ts0 "payload"
        (Json.str "payload-v1") none =
        "cecf042f75616508f571e58c510daa171019b489f7ad1d04abf13ed1f6c66395" := by
      rfl
    have h2 : Ledger.compute_entry_hash "DAEMON_START" Fixtures.ts0 "payload"
        (Json.str "qayload-v1") none =
        "c5fafb6905dfbf3d5ade19e4be19e3b1ee08a88a8e158b15102e26256ab31a6c" := by
      rfl
    intro hcontra
    have hcontra2 :
        some (Ledger.compute_entry_hash "DAEMON_START" Fixtures.ts0 "payload"
          (Json.str "qayload-v1") none) =
        some (Ledger.compute_entry_hash "DAEMON_START" Fixtures.ts0 "payload"
          (Json.str "payload-v1") none) := hcontra
    rw [h1, h2] at hcontra2
    exact absurd (Option.some.inj hcontra2) (by decide)

/-- C9 counterexample: on a fresh (empty or missing) ledger the in-memory
seed is `None`, so the very first appended entry's `previous_hash` is JSON
`null` — not the sentinel string `"GENESIS"` the claim states. -/
theorem c9_first_prev_hash_null_counterexample :
    (Ledger.append_event (Ledger.load_last_hash []) "DAEMON_START"
        (Json.obj []) Fixtures.ts0).1.previous_hash = none ∧
    (Ledger.append_event (Ledger.load_last_hash []) "DAEMON_START"
        (Json.obj []) Fixtures.ts0).1.previous_hash ≠ some "GENESIS" := by
  exact ⟨rfl, by decide⟩

/-- C9 amended: the in-memory `last_hash` is seeded from the last persisted
line at startup, or `None` (JSON `null`) when the ledger is empty or
missing; the first entry ever appended therefore has `previous_hash` null,
and every later entry's `previous_hash` equals the preceding entry's
`entry_hash` (`ChainedFrom` linkage), including across a restart that
re-seeds from the persisted file. -/
theorem c9_chain_linkage_null_seed (persisted : List Ledger.LedgerEntry)
    (evs : List (String × Json × String))
    (hp : Ledger.ChainedFrom none persisted) :
    Ledger.ChainedFrom none
      (persisted ++ Ledger.appendEvents (Ledger.load_last_hash persisted) evs) ∧
    ∀ e : Ledger.LedgerEntry,
      (Ledger.appendEvents (Ledger.load_last_hash []) evs).head? = some e →
      e.previous_hash = none := by
  constructor
  · refine chainedFrom_append none persisted _ hp ?_
    rw [← load_last_hash_eq_chainEnd]
    exact appendEvents_chained evs _
  · intro e he
    cases evs with
    | nil => simp [Ledger.appendEvents] at he
    | cons ev rest =>
        obtain ⟨t, p, ts⟩ := ev
        simp [Ledger.appendEvents, Ledger.load_last_hash] at he
        rw [← he]
        rfl

/-- C9 witness: instantiating the amended linkage theorem on a concrete
fresh ledger and one concrete appended event. -/
theorem c9_chain_linkage_null_seed_witness :
    Ledger.ChainedFrom none
      ([] ++ Ledger.appendEvents (Ledger.load_last_hash [])
        [("DAEMON_START", Json.obj [], Fixtures.ts0)]) :=
  (c9_chain_linkage_null_seed [] [("DAEMON_START", Json.obj [], Fixtures.ts0)]
    trivial).1

/-- C10: a result constructed with an empty `hash` field gets, in
`__post_init__`, the first 16 hex characters of the SHA-256 digest of the
sorted-key compact JSON of its other fields; a result constructed with a
non-empty `hash` keeps that value unchanged (it is never recomputed or
checked against the content). -/
theorem c10_result_hash_post_init (invariant_id name : String)
    (status : InvariantStatus) (severity : Severity)
    (reason timestamp : String) (evidence : List (String × Json)) :
    (mkInvariantResult invariant_id name status severity reason timestamp
        evidence "").hash =
      (sha256Hex (utf8Bytes (encodeJson (Json.obj
        [("invariant_id", .str invariant_id), ("name", .str name),
         ("status", .str status.value), ("severity", .str severity.value),
         ("reason", .str reason), ("timestamp", .str timestamp),
         ("evidence", .obj evidence)])))).take 16 ∧
    ∀ h : String, h ≠ "" →
      (mkInvariantResult invariant_id name status severity reason timestamp
          evidence h).hash = h := by
  constructor
  · simp only [mkInvariantResult, computeResultHash]
    rw [if_pos trivial]
  · intro h hne
    simp [mkInvariantResult, hne]

/-- C10 witness: a concrete supplied non-empty hash is stored unchanged. -/
theorem c10_result_hash_post_init_witness :
    (mkInvariantResult "INV-001" "Immutable Audit Trail" .PASS .CRITICAL
        "ok" Fixtures.ts0 [] "deadbeefdeadbeef").hash = "deadbeefdeadbeef" :=
  (c10_result_hash_post_init "INV-001" "Immutable Audit Trail" .PASS
    .CRITICAL "ok" Fixtures.ts0 []).2 "deadbeefdeadbeef" (by decide)

/-- C8 counterexample: registering a second invariant under an id that is
already registered raises no error and silently replaces the first
registration — `register` is a plain dict assignment (last write wins). -/
theorem c8_register_overwrites_counterexample :
    Fixtures.dupRegistry.invariants.length = 1 ∧
    (Fixtures.dupRegistry.get "INV-DUP").map (fun i => i.name) =
      some "second registration" ∧
    (Fixtures.dupRegistry.get "INV-DUP").map (fun i => i.name) ≠
      some "first registration" := by
  refine ⟨rfl, rfl, ?_⟩
  intro h
  have h2 : "second registration" = "first registration" := by
    have h3 : some "second registration" = some "first registration" := h
    injection h3
  exact absurd h2 (by decide)

theorem register_find_replaced (inv : Invariant) (l : List Invariant)
    (h : l.any (fun x => x.id == inv.id) = true) :
    (l.map (fun x => if x.id == inv.id then inv else x)).find?
      (fun x => x.id == inv.id) = some inv := by
  induction l with
  | nil => simp at h
  | cons x rest ih =>
      by_cases hx : (x.id == inv.id) = true
      · simp [List.find?, hx]
      · have hxf : (x.id == inv.id) = false := by simpa using hx
        have hr : rest.any (fun y => y.id == inv.id) = true := by
          simpa [hxf] using h
        simpa [List.find?, hxf] using ih hr

theorem register_find_appended (inv : Invariant) (l : List Invariant)
    (h : l.any (fun x => x.id == inv.id) = false) :
    (l ++ [inv]).find? (fun x => x.id == inv.id) = some inv := by
  induction l with
  | nil => simp [List.find?]
  | cons x rest ih =>
      have hx : (x.id == inv.id) = false := by
        by_contra hc
        simp [Bool.not_eq_false] at hc
        simp [hc] at h
      have hr : rest.any (fun x => x.id == inv.id) = false := by
        simpa [hx] using h
      simpa [List.find?, hx] using ih hr

/-- C8 amended: `register` never raises; registering under an existing id
silently replaces the stored invariant (last write wins, count unchanged),
while a new id is appended (count grows by one); in both cases a
subsequent lookup of the id yields the newly registered invariant. -/
theorem c8_register_last_write_wins (reg : InvariantRegistry)
    (inv : Invariant) :
    (reg.register inv).get inv.id = some inv ∧
    (reg.register inv).invariants.length =
      (if reg.invariants.any (fun x => x.id == inv.id) then
        reg.invariants.length
      else
        reg.invariants.length + 1) := by
  by_cases h : reg.invariants.any (fun x => x.id == inv.id) = true
  · refine ⟨?_, ?_⟩
    · simp only [InvariantRegistry.register, InvariantRegistry.get, h,
        ite_true]
      exact register_find_replaced inv reg.invariants h
    · simp [InvariantRegistry.register, h]
  · have h' : reg.invariants.any (fun x => x.id == inv.id) = false := by
      simpa using h
    refine ⟨?_, ?_⟩
    · simp only [InvariantRegistry.register, InvariantRegistry.get, h',
        Bool.false_eq_true, ite_false]
      exact register_find_appended inv reg.invariants h'
    · simp [InvariantRegistry.register, h']

/-- C3: `decide` is total over the declared enums — for every
`(severity, op_class)` pair the sealed matrix holds an entry, and `decide`
returns exactly that table entry; defensively, on any matrix in which a
pair is not found, `decide` resolves to fail-secure DENY with
`requires_quorum`, `requires_challenge_clear` and maximal audit level. -/
theorem c3_decide_total_fail_secure :
    (∀ (severity : Halt.Severity) (op_class : Halt.OpClass),
      (Halt.theMatrix.find? (fun e =>
        e.severity == severity && e.op_class == op_class)).isSome = true ∧
      Halt.decide severity op_class ∈ Halt.theMatrix) ∧
    ∀ (m : List Halt.HaltMatrixEntry) (severity : Halt.Severity)
      (op_class : Halt.OpClass),
      m.find? (fun e => e.severity == severity && e.op_class == op_class) =
        none →
      Halt.decideOn m severity op_class =
        { severity, op_class, behavior := .DENY, requires_quorum := true,
          requires_challenge_clear := true, audit_level := "maximum" } := by
  constructor
  · decide
  · intro m severity op_class h
    simp [Halt.decideOn, h]

/-- C3 witness: the fail-secure branch at a concrete empty matrix and a
concrete pair, and totality at a concrete pair. -/
theorem c3_decide_total_fail_secure_witness :
    Halt.decideOn [] .CRITICAL .CONFIG_DEPLOY =
      { severity := .CRITICAL, op_class := .CONFIG_DEPLOY,
        behavior := .DENY, requires_quorum := true,
        requires_challenge_clear := true, audit_level := "maximum" } :=
  c3_decide_total_fail_secure.2 [] .CRITICAL .CONFIG_DEPLOY rfl

/-- C4: `can_proceed` is false on DENY and QUEUE; on HALT it is true
exactly when every required gating condition (quorum if required,
challenge-clear if required) holds; on ALLOW and WARN_ALLOW it is true.
In particular CONFIG_DEPLOY at CRITICAL with quorum unsatisfied and
challenges clear is BLOCKED with a reason naming quorum, and the same call
with quorum satisfied is PROCEED. -/
theorem c4_can_proceed_behavior :
    (∀ (s : Halt.Severity) (o : Halt.OpClass) (q c : Bool),
      (((Halt.decide s o).behavior = .DENY ∨
        (Halt.decide s o).behavior = .QUEUE) →
          (Halt.can_proceed s o q c).1 = false) ∧
      ((Halt.decide s o).behavior = .HALT →
        ((Halt.can_proceed s o q c).1 = true ↔
          (((Halt.decide s o).requires_quorum = true → q = true) ∧
           ((Halt.decide s o).requires_challenge_clear = true → c = true)))) ∧
      (((Halt.decide s o).behavior = .ALLOW ∨
        (Halt.decide s o).behavior = .WARN_ALLOW) →
          (Halt.can_proceed s o q c).1 = true)) ∧
    Halt.can_proceed .CRITICAL .CONFIG_DEPLOY false true =
      (false, "Operation config_deploy halted: quorum required") ∧
    (Halt.can_proceed .CRITICAL .CONFIG_DEPLOY true true).1 = true ∧
    ∀ ts : String,
      (Halt.evaluate_operation .CONFIG_DEPLOY .CRITICAL false true ts).decision
        = "BLOCKED" ∧
      (Halt.evaluate_operation .CONFIG_DEPLOY .CRITICAL true true ts).decision
        = "PROCEED" := by
  refine ⟨by decide, by decide, by decide, ?_⟩
  intro ts
  exact ⟨rfl, rfl⟩

/-- C4 witness: the HALT clause instantiated at a concrete cell of the
matrix (CONFIG_DEPLOY at CRITICAL is a HALT entry). -/
theorem c4_can_proceed_behavior_witness :
    (Halt.can_proceed .CRITICAL .CONFIG_DEPLOY true true).1 = true ↔
      (((Halt.decide .CRITICAL .CONFIG_DEPLOY).requires_quorum = true →
        true = true) ∧
       ((Halt.decide .CRITICAL .CONFIG_DEPLOY).requires_challenge_clear = true
        → true = true)) :=
  ((c4_can_proceed_behavior.1 .CRITICAL .CONFIG_DEPLOY true true).2.1
    (by decide))

/-- C7 counterexample: the emergency-recovery whitelist is NOT
quorum-gated in `can_proceed` — AUTHORITY_REVOKE at CRITICAL proceeds even
with `quorum_satisfied=false` (its WARN_ALLOW behavior short-circuits the
quorum requirement recorded on the entry). -/
theorem c7_whitelist_not_quorum_gated_counterexample :
    (Halt.decide .CRITICAL .AUTHORITY_REVOKE).requires_quorum = true ∧
    (Halt.can_proceed .CRITICAL .AUTHORITY_REVOKE false false).1 = true := by
  decide

/-- C7 amended: at CRITICAL every operation class outside the
emergency-recovery whitelist and CHALLENGE_DISMISS has behavior HALT (with
quorum and challenge-clear required); the whitelist operations
(AUTHORITY_REVOKE, CONFIG_ROLLBACK, SYSTEM_SHUTDOWN) carry
`requires_quorum=true` in their matrix entry but have behavior WARN_ALLOW,
so `can_proceed` returns true for them regardless of quorum; and
CHALLENGE_DISMISS at CRITICAL is denied outright for every combination of
the gating flags. -/
theorem c7_critical_row :
    (∀ o : Halt.OpClass,
      o ∉ ([.AUTHORITY_REVOKE, .CONFIG_ROLLBACK, .SYSTEM_SHUTDOWN] :
        List Halt.OpClass) →
      o ≠ .CHALLENGE_DISMISS →
      (Halt.decide .CRITICAL o).behavior = .HALT ∧
      (Halt.decide .CRITICAL o).requires_quorum = true ∧
      (Halt.decide .CRITICAL o).requires_challenge_clear = true) ∧
    (∀ o ∈ ([.AUTHORITY_REVOKE, .CONFIG_ROLLBACK, .SYSTEM_SHUTDOWN] :
        List Halt.OpClass),
      (Halt.decide .CRITICAL o).behavior = .WARN_ALLOW ∧
      (Halt.decide .CRITICAL o).requires_quorum = true ∧
      ∀ q c : Bool, (Halt.can_proceed .CRITICAL o q c).1 = true) ∧
    ∀ q c : Bool,
      (Halt.can_proceed .CRITICAL .CHALLENGE_DISMISS q c).1 = false := by
  decide

/-- C7 witness: the amended row instantiated at concrete operation
classes. -/
theorem c7_critical_row_witness :
    (Halt.decide .CRITICAL .CONFIG_DEPLOY).behavior = .HALT ∧
    (Halt.decide .CRITICAL .CONFIG_DEPLOY).requires_quorum = true ∧
    (Halt.decide .CRITICAL .CONFIG_DEPLOY).requires_challenge_clear = true :=
  c7_critical_row.1 .CONFIG_DEPLOY (by decide) (by decide)

/-- C2: in a registry whose invariants are `pre ++ invJ :: post` where
exactly `invJ`'s predicate raises (and every other invariant's validation
does not yield ERROR status), `validate_all` still returns one result per
invariant, equal position-wise to each invariant's own validation — the
raiser is converted at the boundary into an ERROR result with severity
escalated to CRITICAL carrying the exception type and message as evidence
— and exactly one result in the batch has ERROR status; the batch is never
aborted. -/
theorem c2_raising_predicate_isolated (pre post : List Invariant)
    (invJ : Invariant) (ctx : Ctx) (now : String) (e : PyExc)
    (hen : invJ.enabled = true)
    (hraise : invJ.validator ctx = .error e)
    (hothers : ∀ inv ∈ pre ++ post, (inv.validate ctx now).status ≠ .ERROR) :
    (InvariantRegistry.validate_all ⟨pre ++ invJ :: post⟩ ctx now).length =
      (pre ++ invJ :: post).length ∧
    InvariantRegistry.validate_all ⟨pre ++ invJ :: post⟩ ctx now =
      pre.map (fun i => i.validate ctx now) ++
        mkInvariantResult invJ.id invJ.name .ERROR .CRITICAL
          ("Validator error: " ++ e.msg) now
          [("exception", .str e.msg), ("exception_type", .str e.excType)] ""
        :: post.map (fun i => i.validate ctx now) ∧
    (InvariantRegistry.validate_all ⟨pre ++ invJ :: post⟩ ctx now).countP
      (fun r => r.status == .ERROR) = 1 := by
  have hmid : invJ.validate ctx now =
      mkInvariantResult invJ.id invJ.name .ERROR .CRITICAL
        ("Validator error: " ++ e.msg) now
        [("exception", .str e.msg), ("exception_type", .str e.excType)] "" := by
    simp [Invariant.validate, hen, hraise]
  have heq : InvariantRegistry.validate_all ⟨pre ++ invJ :: post⟩ ctx now =
      pre.map (fun i => i.validate ctx now) ++
        mkInvariantResult invJ.id invJ.name .ERROR .CRITICAL
          ("Validator error: " ++ e.msg) now
          [("exception", .str e.msg), ("exception_type", .str e.excType)] ""
        :: post.map (fun i => i.validate ctx now) := by
    simp [InvariantRegistry.validate_all, hmid]
  refine ⟨by simp [InvariantRegistry.validate_all], heq, ?_⟩
  rw [heq, List.countP_append, List.countP_cons]
  have hpre : (pre.map (fun i => i.validate ctx now)).countP
      (fun r => r.status == .ERROR) = 0 := by
    rw [List.countP_eq_zero]
    intro a ha
    obtain ⟨inv, hinv, rfl⟩ := List.mem_map.mp ha
    have hne := hothers inv (List.mem_append_left _ hinv)
    simpa using hne
  have hpost : (post.map (fun i => i.validate ctx now)).countP
      (fun r => r.status == .ERROR) = 0 := by
    rw [List.countP_eq_zero]
    intro a ha
    obtain ⟨inv, hinv, rfl⟩ := List.mem_map.mp ha
    have hne := hothers inv (List.mem_append_right _ hinv)
    simpa using hne
  rw [hpre, hpost]
  simp [mkInvariantResult_status]

/-- C2 witness: a concrete registry of three invariants where exactly the
middle one raises yields three results with exactly one ERROR. -/
theorem c2_raising_predicate_isolated_witness :
    (InvariantRegistry.validate_all
      ⟨[Fixtures.invAlwaysPass] ++ Fixtures.invRaises :: [Fixtures.invAlwaysFail]⟩
      ([] : Ctx) Fixtures.ts0).countP (fun r => r.status == .ERROR) = 1 :=
  (c2_raising_predicate_isolated [Fixtures.invAlwaysPass]
    [Fixtures.invAlwaysFail] Fixtures.invRaises ([] : Ctx) Fixtures.ts0
    ⟨"RuntimeError", "exploded"⟩ rfl rfl (by
      intro inv h
      rcases List.mem_append.mp h with h1 | h2
      · have hh : inv = Fixtures.invAlwaysPass := List.mem_singleton.mp h1
        subst hh
        decide
      · have hh : inv = Fixtures.invAlwaysFail := List.mem_singleton.mp h2
        subst hh
        decide)).2.2

/-- C5 counterexample: a batch whose statuses are PASS and SKIP contains
no FAIL and no ERROR, yet the U step of `run_audit` reports failed — SKIP
is not tolerated as passing by the code. -/
theorem c5_skip_fails_u_step_counterexample :
    ([Fixtures.passResult, Fixtures.skipResult].all
      (fun r => !(r.status == .FAIL) && !(r.status == .ERROR))) = true ∧
    ((HUGProtocol.run_audit "/tmp/ledger.jsonl" [] ""
        [Fixtures.passResult, Fixtures.skipResult] Fixtures.ts0).get? 1).map
      (fun r => r.passed) = some false := by
  exact ⟨by decide, rfl⟩

/-- C5 amended: the steps of a `run_audit` are H, U, G in order, and the U
step passes iff literally every result in the batch has status PASS: FAIL
and ERROR fail the step, and so does SKIP (it is not tolerated as
passing). -/
theorem c5_u_step_passes_iff_all_pass (lp : String) (files : List String)
    (msg : String) (batch : List InvariantResult) (now : String) :
    (HUGProtocol.run_audit lp files msg batch now).map (fun r => r.step) =
      ["H", "U", "G"] ∧
    (((HUGProtocol.run_audit lp files msg batch now).get? 1).map
      (fun r => r.passed) = some true ↔
      ∀ r ∈ batch, r.status = .PASS) := by
  refine ⟨rfl, ?_⟩
  rw [show ((HUGProtocol.run_audit lp files msg batch now).get? 1).map
      (fun r => r.passed) =
      some (batch.all (fun r => r.status == .PASS)) from rfl]
  simp [List.all_eq_true]

/-- C6 counterexample: with a ledger path given and the filesystem
rejecting the append ("disk full"), the G step still reports passed=true
and the whole audit passes; and even on a successful write only the H and
U step results are written to the ledger — not all three. -/
theorem c6_ledger_failure_does_not_fail_audit_counterexample :
    ((HUGStandalone.run_hug_audit ["src/app.py"] "fix: typo"
        (some "/var/ledger.jsonl") (true, []) (.error "disk full")
        Fixtures.ts0).1.get? 2).map (fun r => r.passed) = some true ∧
    HUGProtocol.is_audit_passed
      (HUGStandalone.run_hug_audit ["src/app.py"] "fix: typo"
        (some "/var/ledger.jsonl") (true, []) (.error "disk full")
        Fixtures.ts0).1 = true ∧
    (HUGStandalone.run_hug_audit ["src/app.py"] "fix: typo"
        (some "/var/ledger.jsonl") (true, []) (.ok ()) Fixtures.ts0).2.length
      = 2 := by
  refine ⟨rfl, by decide, rfl⟩

/-- C6 amended: the standalone G step always reports passed=true once
reached; the overall audit outcome is decided by H and U alone, unchanged
by any ledger-write failure (an IOError is caught and recorded as
`ledger_error` evidence); and when a path is given and the write succeeds,
exactly the H and U step results are persisted — the G result is appended
to the returned list only after the write loop. -/
theorem c6_g_step_always_passes (files : List String) (msg : String)
    (lp : Option String) (it : Bool × List (String × Json))
    (wo : Except String Unit) (now : String) :
    (HUGStandalone.run_hug_audit files msg lp it wo now).1.map
      (fun r => r.passed) =
      [!HUGStandalone.needs_human_review files ||
        HUGStandalone.is_human_approved msg, it.1, true] ∧
    HUGProtocol.is_audit_passed
      (HUGStandalone.run_hug_audit files msg lp it wo now).1 =
      ((!HUGStandalone.needs_human_review files ||
        HUGStandalone.is_human_approved msg) && it.1) ∧
    ∀ p : String, lp = some p → wo = .ok () →
      (HUGStandalone.run_hug_audit files msg lp it wo now).2.length = 2 := by
  cases lp with
  | none =>
      refine ⟨rfl, ?_, ?_⟩
      · simp [HUGStandalone.run_hug_audit, HUGProtocol.is_audit_passed]
      · intro p hp
        exact absurd hp (by simp)
  | some q =>
      cases wo with
      | ok u =>
          refine ⟨rfl, ?_, ?_⟩
          · simp [HUGStandalone.run_hug_audit, HUGProtocol.is_audit_passed]
          · intro p hp hw
            rfl
      | error err =>
          refine ⟨rfl, ?_, ?_⟩
          · simp [HUGStandalone.run_hug_audit, HUGProtocol.is_audit_passed]
          · intro p hp hw
            exact absurd hw (by simp)

/-- C6 witness: the persisted-lines clause at a concrete successful
write. -/
theorem c6_g_step_always_passes_witness :
    (HUGStandalone.run_hug_audit [] "" (some "/ledger") (true, []) (.ok ())
      Fixtures.ts0).2.length = 2 :=
  (c6_g_step_always_passes [] "" (some "/ledger") (true, []) (.ok ())
    Fixtures.ts0).2.2 "/ledger" rfl rfl

end Sovereign
